import Mathlib

/-!
Verification development for the AI energy and compute forecast model
(src/energy_model.py). Python floats are embedded as exact rationals (ℚ)
and years as integers (ℤ); the fallible division in calculate_capex
(a ZeroDivisionError in the source when watts = 0) is embedded as Option.
-/

namespace EnergyModel

/-! Base constants (src/energy_model.py lines 33-56). -/

def BASE_YEAR : ℤ := 2024
def H100_POWER : ℚ := 700
def H100_COST : ℚ := 24000
def H100_FLOPS : ℚ := 2 * 10 ^ 15

def WORLD_ELECTRICITY_2024 : ℚ := (176 / 5) * 10 ^ 12
def WORLD_GDP_2024 : ℚ := 111 * 10 ^ 12
def WORLD_FINAL_ENERGY_2024 : ℚ := 180 * 10 ^ 12

def TRANSFORMERS_PER_MW : ℚ := 1 / 2
def SWITCHGEAR_PER_MW : ℚ := 2
def PV_MODULES_PER_MW_SOLAR : ℚ := 4000
def BATTERIES_MWH_PER_MW_SOLAR : ℚ := 4
def TURBINES_PER_MW_GAS : ℚ := 1

def GLOBAL_TRANSFORMER_PRODUCTION : ℚ := 10000
def GLOBAL_SWITCHGEAR_PRODUCTION : ℚ := 50000
def GLOBAL_PV_MODULE_PRODUCTION : ℚ := 10 ^ 9
def GLOBAL_BATTERY_PRODUCTION : ℚ := 500
def GLOBAL_TURBINE_PRODUCTION : ℚ := 5000

/-! Efficiency curves (src/energy_model.py lines 63-171).

Each curve compounds a yearly rate obtained by linear interpolation between
two anchor points, clamped at the horizon year 2040 by the `if y >= 2040`
test inside the loop.  The year-by-year loop is embedded as a fold over the
number of years processed so far. -/

/-- Yearly growth rate used by moores_law: scipy interp1d between
(2025, 1.35) and (2040, 1.25) with linear extrapolation, and the loop's
explicit clamp to 1.25 for years at or past 2040. -/
def moores_growth_rate (y : ℤ) : ℚ :=
  if 2040 ≤ y then 5 / 4
  else 27 / 20 + ((y : ℚ) - 2025) * (5 / 4 - 27 / 20) / (2040 - 2025)

/-- Yearly improvement rate used by power_efficiency: interp1d between
(2025, 1.3) and (2040, 1.2), clamped to 1.2 for years at or past 2040. -/
def power_improvement_rate (y : ℤ) : ℚ :=
  if 2040 ≤ y then 6 / 5
  else 13 / 10 + ((y : ℚ) - 2025) * (6 / 5 - 13 / 10) / (2040 - 2025)

/-- Yearly improvement rate used by cost_efficiency: interp1d between
(2025, 1.3) and (2040, 1.2), clamped to 1.2 for years at or past 2040. -/
def cost_improvement_rate (y : ℤ) : ℚ :=
  if 2040 ≤ y then 6 / 5
  else 13 / 10 + ((y : ℚ) - 2025) * (6 / 5 - 13 / 10) / (2040 - 2025)

/-- Cumulative multiplication loop: base times f start, f (start+1), ...,
f (start+n-1), in source order. -/
def foldMul (base : ℚ) (f : ℤ → ℚ) (start : ℤ) : ℕ → ℚ
  | 0 => base
  | n + 1 => foldMul base f start n * f (start + n)

/-- Cumulative division loop: base divided by f start, f (start+1), ...,
f (start+n-1), in source order. -/
def foldDiv (base : ℚ) (f : ℤ → ℚ) (start : ℤ) : ℕ → ℚ
  | 0 => base
  | n + 1 => foldDiv base f start n / f (start + n)

/-- moores_law (src lines 63-93): 1.0 for year ≤ BASE_YEAR, otherwise the
product of the yearly growth rate over every year from BASE_YEAR+1 through
year inclusive. -/
def moores_law (year : ℤ) : ℚ :=
  if year ≤ BASE_YEAR then 1
  else foldMul 1 moores_growth_rate (BASE_YEAR + 1) (year - BASE_YEAR).toNat

/-- power_efficiency (src lines 96-132): 1000.0 for year ≤ 2024, 1000.0 at
2025 (early return), otherwise 1000.0 divided by the yearly improvement rate
for every year from 2026 through year inclusive. -/
def power_efficiency (year : ℤ) : ℚ :=
  if year ≤ 2024 then 1000
  else if year = 2025 then 1000
  else foldDiv 1000 power_improvement_rate 2026 (year - 2025).toNat

/-- cost_efficiency (src lines 135-171): 24000.0 for year ≤ 2024, 24000.0 at
2025 (early return), otherwise 24000.0 divided by the yearly improvement rate
for every year from 2026 through year inclusive. -/
def cost_efficiency (year : ℤ) : ℚ :=
  if year ≤ 2024 then 24000
  else if year = 2025 then 24000
  else foldDiv 24000 cost_improvement_rate 2026 (year - 2025).toNat

/-! Core calculation functions (src/energy_model.py lines 178-348). -/

structure ComputeMetrics where
  h100e_count : ℚ
  watts_per_h100e : ℚ
  total_flops : ℚ
  flops_per_h100e : ℚ
deriving DecidableEq

/-- watts_to_h100e (src lines 178-202). -/
def watts_to_h100e (watts : ℚ) (year : ℤ) : ComputeMetrics :=
  let watts_per_h100e := power_efficiency year
  let h100e_count := watts / watts_per_h100e
  let moores_factor := moores_law year
  let flops_per_h100e := H100_FLOPS * moores_factor
  { h100e_count := h100e_count
    watts_per_h100e := watts_per_h100e
    total_flops := h100e_count * flops_per_h100e
    flops_per_h100e := flops_per_h100e }

structure CapExBreakdown where
  total_capex : ℚ
  compute_capex : ℚ
  non_compute_capex : ℚ
  cost_per_h100e : ℚ
  capex_per_watt : ℚ
deriving DecidableEq

/-- The non-compute CapEx ratio of calculate_capex (src line 224):
0.5 * 1.1 ^ (year - 2025), an integer power that is evaluated for every
year, including year < 2025 (negative exponent). -/
def non_compute_ratio (year : ℤ) : ℚ :=
  (1 / 2) * (11 / 10 : ℚ) ^ (year - 2025)

/-- calculate_capex (src lines 205-235).  The final field divides by watts;
in the source this raises ZeroDivisionError when watts = 0, which is
embedded as none. -/
def calculate_capex (watts : ℚ) (year : ℤ) : Option CapExBreakdown :=
  if watts = 0 then none
  else
    let compute_info := watts_to_h100e watts year
    let cost_per_h100e := cost_efficiency year
    let compute_capex := compute_info.h100e_count * cost_per_h100e
    let non_compute_capex := compute_capex * non_compute_ratio year
    let total_capex := compute_capex + non_compute_capex
    some { total_capex := total_capex
           compute_capex := compute_capex
           non_compute_capex := non_compute_capex
           cost_per_h100e := cost_per_h100e
           capex_per_watt := total_capex / watts }

structure InfrastructureRequirements where
  transformers : ℚ
  switchgear : ℚ
  pv_modules : ℚ
  batteries_mwh : ℚ
  turbines : ℚ
  total_mw : ℚ
  solar_mw_capacity : ℚ
  gas_mw : ℚ
deriving DecidableEq

/-- Key strings of the energy-mix dictionary. -/
def solar_key : String := "solar"

def gas_key : String := "gas"

/-- Python dict lookup with default 0.0, as in energy_mix.get(key, 0.0);
the dict is embedded as an insertion-ordered association list. -/
def mixGet (m : List (String × ℚ)) (k : String) : ℚ :=
  match m.find? (fun p => p.1 == k) with
  | some p => p.2
  | none => 0

/-- calculate_infrastructure (src lines 238-277). -/
def calculate_infrastructure (watts : ℚ) (energy_mix : List (String × ℚ)) :
    InfrastructureRequirements :=
  let mw := watts / 1000000
  let transformers := mw * TRANSFORMERS_PER_MW
  let switchgear := mw * SWITCHGEAR_PER_MW
  let solar_fraction := mixGet energy_mix solar_key
  let solar_mw := mw * solar_fraction
  let solar_capacity_needed := solar_mw * 4
  let pv_modules := solar_capacity_needed * PV_MODULES_PER_MW_SOLAR
  let batteries_mwh := solar_capacity_needed * BATTERIES_MWH_PER_MW_SOLAR
  let gas_fraction := mixGet energy_mix gas_key
  let gas_mw := mw * gas_fraction
  let turbines := gas_mw * TURBINES_PER_MW_GAS
  { transformers := transformers
    switchgear := switchgear
    pv_modules := pv_modules
    batteries_mwh := batteries_mwh
    turbines := turbines
    total_mw := mw
    solar_mw_capacity := solar_capacity_needed
    gas_mw := gas_mw }

structure TokenOutput where
  tokens_per_second : ℚ
  annual_tokens : ℚ
  effective_h100e : ℚ
deriving DecidableEq

/-- estimate_token_output (src lines 280-309); utilization defaults to 0.5. -/
def estimate_token_output (h100e_count : ℚ) (utilization : ℚ := 1 / 2) :
    TokenOutput :=
  let tokens_per_second_per_h100e : ℚ := 10000
  let effective_h100e := h100e_count * utilization
  let tokens_per_second := effective_h100e * tokens_per_second_per_h100e
  let seconds_per_year : ℚ := (1461 / 4) * 24 * 3600
  { tokens_per_second := tokens_per_second
    annual_tokens := tokens_per_second * seconds_per_year
    effective_h100e := effective_h100e }

structure GlobalFractions where
  electricity_fraction : ℚ
  final_energy_fraction : ℚ
  gdp_fraction : ℚ
  transformer_fraction : ℚ
  switchgear_fraction : ℚ
  pv_fraction : ℚ
  battery_fraction : ℚ
  turbine_fraction : ℚ
deriving DecidableEq

/-- calculate_global_fractions (src lines 312-348). -/
def calculate_global_fractions (watts : ℚ) (capex : ℚ)
    (infrastructure : InfrastructureRequirements) : GlobalFractions :=
  let annual_energy := watts * (1461 / 4) * 24
  { electricity_fraction := annual_energy / WORLD_ELECTRICITY_2024
    final_energy_fraction := annual_energy / WORLD_FINAL_ENERGY_2024
    gdp_fraction := capex / WORLD_GDP_2024
    transformer_fraction := infrastructure.transformers / GLOBAL_TRANSFORMER_PRODUCTION
    switchgear_fraction := infrastructure.switchgear / GLOBAL_SWITCHGEAR_PRODUCTION
    pv_fraction := infrastructure.pv_modules / GLOBAL_PV_MODULE_PRODUCTION
    battery_fraction := infrastructure.batteries_mwh / (GLOBAL_BATTERY_PRODUCTION * 1000)
    turbine_fraction := infrastructure.turbines / GLOBAL_TURBINE_PRODUCTION }

/-! Scenario analysis (src/energy_model.py lines 355-452). -/

structure Scenario where
  watts : ℚ
  year : ℤ
  energy_mix : List (String × ℚ)
  compute : ComputeMetrics
  capex : CapExBreakdown
  infrastructure : InfrastructureRequirements
  tokens : TokenOutput
  global_fractions : GlobalFractions
deriving DecidableEq

/-- The energy-mix normalization inlined at the top of run_scenario
(src lines 431-434): divide each share by the total when the total is
strictly positive, otherwise leave the mix unchanged. -/
def normalize_mix (energy_mix : List (String × ℚ)) : List (String × ℚ) :=
  let total := (energy_mix.map Prod.snd).sum
  if 0 < total then energy_mix.map (fun p => (p.1, p.2 / total)) else energy_mix

/-- run_scenario (src lines 419-452).  calculate_capex raises (none) exactly
when watts = 0, aborting the whole scenario, so the result is Option. -/
def run_scenario (watts : ℚ) (year : ℤ) (energy_mix : List (String × ℚ)) :
    Option Scenario :=
  let energy_mix := normalize_mix energy_mix
  let compute := watts_to_h100e watts year
  match calculate_capex watts year with
  | none => none
  | some capex =>
    let infrastructure := calculate_infrastructure watts energy_mix
    let tokens := estimate_token_output compute.h100e_count
    let global_fractions := calculate_global_fractions watts capex.total_capex infrastructure
    some { watts := watts
           year := year
           energy_mix := energy_mix
           compute := compute
           capex := capex
           infrastructure := infrastructure
           tokens := tokens
           global_fractions := global_fractions }

/-! Supporting lemmas about the efficiency curves. -/

/-- The moores_law yearly growth rate never drops below the horizon value 1.25. -/
lemma moores_growth_rate_ge (y : ℤ) : (5 / 4 : ℚ) ≤ moores_growth_rate y := by
  unfold moores_growth_rate
  split_ifs with h
  · exact le_rfl
  · push_neg at h
    have hy : (y : ℚ) ≤ 2039 := by exact_mod_cast (by omega : y ≤ 2039)
    nlinarith

/-- The power-efficiency yearly improvement rate never drops below the horizon
value 1.2. -/
lemma power_improvement_rate_ge (y : ℤ) : (6 / 5 : ℚ) ≤ power_improvement_rate y := by
  unfold power_improvement_rate
  split_ifs with h
  · exact le_rfl
  · push_neg at h
    have hy : (y : ℚ) ≤ 2039 := by exact_mod_cast (by omega : y ≤ 2039)
    nlinarith

lemma moores_growth_rate_pos (y : ℤ) : 0 < moores_growth_rate y :=
  lt_of_lt_of_le (by norm_num) (moores_growth_rate_ge y)

lemma power_improvement_rate_pos (y : ℤ) : 0 < power_improvement_rate y :=
  lt_of_lt_of_le (by norm_num) (power_improvement_rate_ge y)

lemma foldMul_pos {base : ℚ} {f : ℤ → ℚ} {start : ℤ} (hb : 0 < base)
    (hf : ∀ y, 0 < f y) : ∀ n, 0 < foldMul base f start n
  | 0 => hb
  | n + 1 => mul_pos (foldMul_pos hb hf n) (hf _)

lemma foldDiv_pos {base : ℚ} {f : ℤ → ℚ} {start : ℤ} (hb : 0 < base)
    (hf : ∀ y, 0 < f y) : ∀ n, 0 < foldDiv base f start n
  | 0 => hb
  | n + 1 => div_pos (foldDiv_pos hb hf n) (hf _)

lemma moores_law_pos (year : ℤ) : 0 < moores_law year := by
  unfold moores_law
  split_ifs
  · norm_num
  · exact foldMul_pos (by norm_num) moores_growth_rate_pos _

lemma power_efficiency_pos (year : ℤ) : 0 < power_efficiency year := by
  unfold power_efficiency
  split_ifs
  · norm_num
  · norm_num
  · exact foldDiv_pos (by norm_num) power_improvement_rate_pos _

/-- Closed form of moores_law on and after the baseline year. -/
lemma moores_law_eq_foldMul (year : ℤ) (h : 2024 ≤ year) :
    moores_law year = foldMul 1 moores_growth_rate 2025 (year - 2024).toNat := by
  unfold moores_law BASE_YEAR
  rcases eq_or_lt_of_le h with h2024 | h2024
  · rw [if_pos (by omega)]
    have : (year - 2024).toNat = 0 := by omega
    rw [this]
    rfl
  · rw [if_neg (by omega)]
    norm_num

/-- Stepping moores_law by one year multiplies by that year's growth rate. -/
lemma moores_law_succ (year : ℤ) (h : 2024 ≤ year) :
    moores_law (year + 1) = moores_law year * moores_growth_rate (year + 1) := by
  rw [moores_law_eq_foldMul year h, moores_law_eq_foldMul (year + 1) (by omega)]
  have hn : (year + 1 - 2024).toNat = (year - 2024).toNat + 1 := by omega
  rw [hn]
  show foldMul 1 moores_growth_rate 2025 (year - 2024).toNat *
      moores_growth_rate (2025 + ((year - 2024).toNat : ℤ)) = _
  rw [show (2025 : ℤ) + ((year - 2024).toNat : ℤ) = year + 1 from by omega]

/-- Closed form of power_efficiency on and after 2025. -/
lemma power_efficiency_eq_foldDiv (year : ℤ) (h : 2025 ≤ year) :
    power_efficiency year = foldDiv 1000 power_improvement_rate 2026 (year - 2025).toNat := by
  unfold power_efficiency
  rcases eq_or_lt_of_le h with h2025 | h2025
  · rw [if_neg (by omega), if_pos (by omega)]
    have : (year - 2025).toNat = 0 := by omega
    rw [this]
    rfl
  · rw [if_neg (by omega), if_neg (by omega)]

/-- Stepping power_efficiency by one year divides by that year's improvement rate. -/
lemma power_efficiency_succ (year : ℤ) (h : 2025 ≤ year) :
    power_efficiency (year + 1) =
      power_efficiency year / power_improvement_rate (year + 1) := by
  rw [power_efficiency_eq_foldDiv year h, power_efficiency_eq_foldDiv (year + 1) (by omega)]
  have hn : (year + 1 - 2025).toNat = (year - 2025).toNat + 1 := by omega
  rw [hn]
  show foldDiv 1000 power_improvement_rate 2026 (year - 2025).toNat /
      power_improvement_rate (2026 + ((year - 2025).toNat : ℤ)) = _
  rw [show (2026 : ℤ) + ((year - 2025).toNat : ℤ) = year + 1 from by omega]

/-- moores_law is monotone non-decreasing from the baseline year on. -/
lemma moores_law_mono {y1 y2 : ℤ} (h1 : 2024 ≤ y1) (h12 : y1 ≤ y2) :
    moores_law y1 ≤ moores_law y2 := by
  refine Int.le_induction (P := fun y => moores_law y1 ≤ moores_law y) ?_ ?_ y2 h12
  · exact le_rfl
  · intro m hm ih
    calc moores_law y1 ≤ moores_law m := ih
    _ ≤ moores_law m * moores_growth_rate (m + 1) := by
        have hpos := moores_law_pos m
        have hge := moores_growth_rate_ge (m + 1)
        nlinarith
    _ = moores_law (m + 1) := (moores_law_succ m (by omega)).symm

/-- power_efficiency is monotone non-increasing from 2025 on. -/
lemma power_efficiency_anti {y1 y2 : ℤ} (h1 : 2025 ≤ y1) (h12 : y1 ≤ y2) :
    power_efficiency y2 ≤ power_efficiency y1 := by
  refine Int.le_induction (P := fun y => power_efficiency y ≤ power_efficiency y1) ?_ ?_ y2 h12
  · exact le_rfl
  · intro m hm ih
    calc power_efficiency (m + 1)
        = power_efficiency m / power_improvement_rate (m + 1) :=
          power_efficiency_succ m (by omega)
    _ ≤ power_efficiency m :=
          div_le_self (power_efficiency_pos m).le
            (le_trans (by norm_num) (power_improvement_rate_ge (m + 1)))
    _ ≤ power_efficiency y1 := ih

/-- Scaling the base of the division loop scales its value. -/
lemma foldDiv_const_mul (c b : ℚ) (f : ℤ → ℚ) (start : ℤ) :
    ∀ n, foldDiv (c * b) f start n = c * foldDiv b f start n
  | 0 => rfl
  | n + 1 => by
    show foldDiv (c * b) f start n / f (start + n) = c * (foldDiv b f start n / f (start + n))
    rw [foldDiv_const_mul c b f start n, mul_div_assoc]

/-- cost_efficiency is the power_efficiency curve scaled by 24: both branch
identically and compound the identical improvement rate. -/
lemma cost_efficiency_eq_24_mul (year : ℤ) :
    cost_efficiency year = 24 * power_efficiency year := by
  unfold cost_efficiency power_efficiency
  split_ifs
  · norm_num
  · norm_num
  · rw [show (24000 : ℚ) = 24 * 1000 by norm_num,
      show cost_improvement_rate = power_improvement_rate from rfl,
      foldDiv_const_mul]

/-! Supporting lemmas about the energy mix and scenario assembly. -/

/-- A list of non-negative shares summing to zero is all zero. -/
lemma snd_eq_zero_of_sum_eq_zero {m : List (String × ℚ)}
    (hsum : (m.map Prod.snd).sum = 0) (hnn : ∀ p ∈ m, 0 ≤ p.2) :
    ∀ p ∈ m, p.2 = 0 := by
  induction m with
  | nil => intro p hp; simp at hp
  | cons a t ih =>
    simp only [List.map_cons, List.sum_cons] at hsum
    have hts : 0 ≤ (t.map Prod.snd).sum := by
      refine List.sum_nonneg ?_
      intro x hx
      obtain ⟨p, hp, rfl⟩ := List.mem_map.mp hx
      exact hnn p (List.mem_cons_of_mem a hp)
    have ha : 0 ≤ a.2 := hnn a (List.mem_cons_self a t)
    have ha0 : a.2 = 0 := by linarith
    have ht0 : (t.map Prod.snd).sum = 0 := by linarith
    intro p hp
    rcases List.mem_cons.mp hp with rfl | hp
    · exact ha0
    · exact ih ht0 (fun q hq => hnn q (List.mem_cons_of_mem a hq)) p hp

/-- Looking up any key in an all-zero mix yields zero (found or defaulted). -/
lemma mixGet_eq_zero {m : List (String × ℚ)} (hz : ∀ p ∈ m, p.2 = 0)
    (k : String) : mixGet m k = 0 := by
  unfold mixGet
  cases hfind : m.find? (fun p => p.1 == k) with
  | none => rfl
  | some p => exact hz p (List.mem_of_find?_eq_some hfind)

/-- A mix whose shares sum to zero is left unchanged by normalization. -/
lemma normalize_mix_of_sum_eq_zero {m : List (String × ℚ)}
    (hsum : (m.map Prod.snd).sum = 0) : normalize_mix m = m := by
  unfold normalize_mix
  rw [hsum]
  norm_num

/-- For nonzero watts the scenario runner succeeds, and each field of the
result is the output of the corresponding pipeline stage. -/
lemma run_scenario_eq_some (watts : ℚ) (year : ℤ) (mix : List (String × ℚ))
    (hw : watts ≠ 0) :
    ∃ s, run_scenario watts year mix = some s ∧
      s.energy_mix = normalize_mix mix ∧
      s.compute = watts_to_h100e watts year ∧
      s.infrastructure = calculate_infrastructure watts (normalize_mix mix) ∧
      s.tokens = estimate_token_output (watts_to_h100e watts year).h100e_count := by
  unfold run_scenario calculate_capex
  rw [if_neg hw]
  exact ⟨_, rfl, rfl, rfl, rfl, rfl⟩

/-- For nonzero watts calculate_capex succeeds with the fields it computes. -/
lemma calculate_capex_eq_some (watts : ℚ) (year : ℤ) (hw : watts ≠ 0) :
    calculate_capex watts year = some
      { total_capex := (watts_to_h100e watts year).h100e_count * cost_efficiency year +
          (watts_to_h100e watts year).h100e_count * cost_efficiency year * non_compute_ratio year
        compute_capex := (watts_to_h100e watts year).h100e_count * cost_efficiency year
        non_compute_capex :=
          (watts_to_h100e watts year).h100e_count * cost_efficiency year * non_compute_ratio year
        cost_per_h100e := cost_efficiency year
        capex_per_watt := ((watts_to_h100e watts year).h100e_count * cost_efficiency year +
          (watts_to_h100e watts year).h100e_count * cost_efficiency year * non_compute_ratio year) /
          watts } := by
  unfold calculate_capex
  rw [if_neg hw]

/-! Claim theorems. -/

/-- C1: for watts = 0 and any year, the unit conversion returns
h100e_count = 0 and total_flops = 0, and calculate_capex signals a defined
error (none, the embedded ZeroDivisionError of its cost-per-watt division)
rather than propagating a silent NaN or infinity. -/
theorem zero_watts_units_and_capex_error (year : ℤ) :
    (watts_to_h100e 0 year).h100e_count = 0 ∧
    (watts_to_h100e 0 year).total_flops = 0 ∧
    calculate_capex 0 year = none := by
  refine ⟨?_, ?_, ?_⟩ <;> simp [watts_to_h100e, calculate_capex]

/-- C2 counterexample: at the negative input watts = -1 the pipeline does not
reject: run_scenario returns a Scenario, whose unit count -1/1000 is derived
from the negative value. -/
theorem negative_watts_not_rejected_cex :
    (run_scenario (-1) 2025 [("solar", 0.5), ("gas", 0.5)]).map
      (fun s => s.compute.h100e_count) = some (-(1 / 1000)) := by
  obtain ⟨s, hs, _, hcomp, _, _⟩ :=
    run_scenario_eq_some (-1) 2025 [("solar", 0.5), ("gas", 0.5)] (by norm_num)
  rw [hs]
  simp only [Option.map_some']
  rw [hcomp]
  show some ((-1 : ℚ) / power_efficiency 2025) = some (-(1 / 1000))
  norm_num [power_efficiency]

/-- C2 (amended): the pipeline performs no input validation: for every
negative watts it runs the full computation and returns a Scenario whose
unit count (watts divided by power_efficiency) is negative, rather than
rejecting the input. -/
theorem negative_watts_scenario_computes (watts : ℚ) (year : ℤ)
    (mix : List (String × ℚ)) (hneg : watts < 0) :
    ∃ s, run_scenario watts year mix = some s ∧ s.compute.h100e_count < 0 := by
  obtain ⟨s, hs, _, hcomp, _, _⟩ :=
    run_scenario_eq_some watts year mix (ne_of_lt hneg)
  refine ⟨s, hs, ?_⟩
  rw [hcomp]
  show watts / power_efficiency year < 0
  exact div_neg_of_neg_of_pos hneg (power_efficiency_pos year)

/-- C2 witness: the amended claim at watts = -1, year = 2025. -/
theorem negative_watts_scenario_computes_witness :
    (-1 : ℚ) < 0 ∧
    ∃ s, run_scenario (-1) 2025 [("solar", 0.5), ("gas", 0.5)] = some s ∧
      s.compute.h100e_count < 0 :=
  ⟨by decide, negative_watts_scenario_computes (-1) 2025 [("solar", 0.5), ("gas", 0.5)] (by decide)⟩

/-- C3: each efficiency curve equals its literal starting constant at the
transition year: moores_law is 1.0 for every year ≤ 2024, moores_law 2025 is
exactly 1.35, power_efficiency 2025 is exactly 1000.0 and cost_efficiency
2025 is exactly 24000.0. -/
theorem curves_transition_values (year : ℤ) (h : year ≤ 2024) :
    moores_law year = 1.0 ∧ moores_law 2025 = 1.35 ∧
    power_efficiency 2025 = 1000.0 ∧ cost_efficiency 2025 = 24000.0 := by
  refine ⟨?_, ?_, ?_, ?_⟩
  · norm_num [moores_law, BASE_YEAR, h]
  · norm_num [moores_law, BASE_YEAR, foldMul, moores_growth_rate]
  · norm_num [power_efficiency]
  · norm_num [cost_efficiency]

/-- C3 witness: the transition values at year = 2024. -/
theorem curves_transition_values_witness :
    (2024 : ℤ) ≤ 2024 ∧
    (moores_law 2024 = 1.0 ∧ moores_law 2025 = 1.35 ∧
     power_efficiency 2025 = 1000.0 ∧ cost_efficiency 2025 = 24000.0) :=
  ⟨by decide, curves_transition_values 2024 (by decide)⟩

/-- C4: for integer years year2 > year1 ≥ 2025, compute density is
non-decreasing and power per unit and cost per unit are non-increasing. -/
theorem curves_monotone (y1 y2 : ℤ) (h1 : 2025 ≤ y1) (h2 : y1 < y2) :
    moores_law y1 ≤ moores_law y2 ∧
    power_efficiency y2 ≤ power_efficiency y1 ∧
    cost_efficiency y2 ≤ cost_efficiency y1 := by
  have h12 : y1 ≤ y2 := le_of_lt h2
  refine ⟨moores_law_mono (by omega) h12, power_efficiency_anti h1 h12, ?_⟩
  rw [cost_efficiency_eq_24_mul, cost_efficiency_eq_24_mul]
  have := power_efficiency_anti h1 h12
  linarith

/-- C4 witness: monotonicity between 2025 and 2026. -/
theorem curves_monotone_witness :
    (2025 : ℤ) ≤ 2025 ∧ (2025 : ℤ) < 2026 ∧
    (moores_law 2025 ≤ moores_law 2026 ∧
     power_efficiency 2026 ≤ power_efficiency 2025 ∧
     cost_efficiency 2026 ≤ cost_efficiency 2025) :=
  ⟨by decide, by decide, curves_monotone 2025 2026 (by decide) (by decide)⟩

/-- C5: the scenario runner normalizes the mix by the sum of the shares, so
the mix solar 2, gas 2 yields the identical Scenario as solar 0.5, gas 0.5
at every watts and year. -/
theorem mix_normalization_scale_invariant (watts : ℚ) (year : ℤ) :
    run_scenario watts year [("solar", 2), ("gas", 2)] =
    run_scenario watts year [("solar", 0.5), ("gas", 0.5)] := by
  have h : normalize_mix [("solar", 2), ("gas", 2)] =
      normalize_mix [("solar", 0.5), ("gas", 0.5)] := by
    norm_num [normalize_mix]
  simp only [run_scenario, h]

/-- C6: a mix of non-negative shares summing to zero is left unchanged by
the scenario runner, and the infrastructure estimator then produces zero
solar and gas infrastructure rather than failing. -/
theorem degenerate_mix_zero_infrastructure (watts : ℚ) (year : ℤ)
    (mix : List (String × ℚ)) (hw : watts ≠ 0)
    (hsum : (mix.map Prod.snd).sum = 0) (hnn : ∀ p ∈ mix, 0 ≤ p.2) :
    ∃ s, run_scenario watts year mix = some s ∧ s.energy_mix = mix ∧
      s.infrastructure.pv_modules = 0 ∧ s.infrastructure.batteries_mwh = 0 ∧
      s.infrastructure.turbines = 0 := by
  obtain ⟨s, hs, hmix, hcomp, hinfra, htok⟩ := run_scenario_eq_some watts year mix hw
  have hnorm := normalize_mix_of_sum_eq_zero hsum
  have hz := snd_eq_zero_of_sum_eq_zero hsum hnn
  refine ⟨s, hs, by rw [hmix, hnorm], ?_, ?_, ?_⟩ <;>
    rw [hinfra, hnorm] <;>
    simp [calculate_infrastructure, mixGet_eq_zero hz]

/-- C6 witness: the all-zero mix at watts = 1, year = 2030. -/
theorem degenerate_mix_zero_infrastructure_witness :
    (1 : ℚ) ≠ 0 ∧
    (([("solar", 0), ("gas", 0)] : List (String × ℚ)).map Prod.snd).sum = 0 ∧
    (∀ p ∈ ([("solar", 0), ("gas", 0)] : List (String × ℚ)), 0 ≤ p.2) ∧
    (∃ s, run_scenario 1 2030 [("solar", 0), ("gas", 0)] = some s ∧
      s.energy_mix = [("solar", 0), ("gas", 0)] ∧
      s.infrastructure.pv_modules = 0 ∧ s.infrastructure.batteries_mwh = 0 ∧
      s.infrastructure.turbines = 0) :=
  ⟨by decide, by simp, by simp,
    degenerate_mix_zero_infrastructure 1 2030 [("solar", 0), ("gas", 0)]
      (by decide) (by simp) (by simp)⟩

/-- C7: transformer and switchgear counts depend only on total watts, not on
the energy mix: transformers = watts/1e6 * 0.5 and switchgear =
watts/1e6 * 2.0 for every mix, and at watts = 100e9 the transformer count
is 50000. -/
theorem grid_infrastructure_mix_independent (watts : ℚ)
    (m1 m2 : List (String × ℚ)) :
    (calculate_infrastructure watts m1).transformers = watts / 1000000 * 0.5 ∧
    (calculate_infrastructure watts m1).switchgear = watts / 1000000 * 2.0 ∧
    (calculate_infrastructure watts m1).transformers =
      (calculate_infrastructure watts m2).transformers ∧
    (calculate_infrastructure watts m1).switchgear =
      (calculate_infrastructure watts m2).switchgear ∧
    (calculate_infrastructure (100 * 10 ^ 9) m1).transformers = 50000 := by
  refine ⟨?_, ?_, rfl, rfl, ?_⟩ <;>
    norm_num [calculate_infrastructure, TRANSFORMERS_PER_MW, SWITCHGEAR_PER_MW]

/-- C8: for every nonzero watts and every integer year, calculate_capex
computes non_compute_capex as compute_capex times the unclamped ratio
0.5 * 1.1 ^ (year - 2025) and total_capex as their sum, and for year < 2025
the ratio is strictly below 0.5. -/
theorem capex_non_compute_ratio_formula (watts : ℚ) (year : ℤ)
    (hw : watts ≠ 0) :
    ∃ c, calculate_capex watts year = some c ∧
      c.non_compute_capex = c.compute_capex * (0.5 * (1.1 : ℚ) ^ (year - 2025)) ∧
      c.total_capex = c.compute_capex + c.non_compute_capex ∧
      (year < 2025 → 0.5 * (1.1 : ℚ) ^ (year - 2025) < 0.5) := by
  have hratio : non_compute_ratio year = 0.5 * (1.1 : ℚ) ^ (year - 2025) := by
    rw [non_compute_ratio, show (0.5 : ℚ) = 1 / 2 by norm_num,
      show (1.1 : ℚ) = 11 / 10 by norm_num]
  refine ⟨_, calculate_capex_eq_some watts year hw, ?_, rfl, ?_⟩
  · rw [← hratio]
  · intro hy
    have h1 : (1.1 : ℚ) ^ (year - 2025) < 1 :=
      zpow_lt_one_of_neg₀ (by norm_num) (by omega)
    nlinarith [h1]

/-- C8 witness: the formula at watts = 1, year = 2024 (a year before 2025,
where the ratio is below 0.5). -/
theorem capex_non_compute_ratio_formula_witness :
    (1 : ℚ) ≠ 0 ∧
    ∃ c, calculate_capex 1 2024 = some c ∧
      c.non_compute_capex = c.compute_capex * (0.5 * (1.1 : ℚ) ^ ((2024 : ℤ) - 2025)) ∧
      c.total_capex = c.compute_capex + c.non_compute_capex ∧
      ((2024 : ℤ) < 2025 → 0.5 * (1.1 : ℚ) ^ ((2024 : ℤ) - 2025) < 0.5) :=
  ⟨by decide, capex_non_compute_ratio_formula 1 2024 (by decide)⟩

/-- C9: the token estimator computes tokens_per_second as
unit count * utilization * 10000 and annual_tokens as
tokens_per_second * 31557600, and the scenario runner calls it with the
default utilization 0.5. -/
theorem token_output_formula (h u watts : ℚ) (year : ℤ)
    (mix : List (String × ℚ)) (hw : watts ≠ 0) :
    (estimate_token_output h u).tokens_per_second = h * u * 10000 ∧
    (estimate_token_output h u).annual_tokens =
      (estimate_token_output h u).tokens_per_second * 31557600 ∧
    ∃ s, run_scenario watts year mix = some s ∧
      s.tokens = estimate_token_output s.compute.h100e_count 0.5 := by
  refine ⟨rfl, ?_, ?_⟩
  · show h * u * 10000 * (1461 / 4 * 24 * 3600) = h * u * 10000 * 31557600
    norm_num
  · obtain ⟨s, hs, _, hcomp, _, htok⟩ := run_scenario_eq_some watts year mix hw
    refine ⟨s, hs, ?_⟩
    rw [htok, hcomp, show (0.5 : ℚ) = 1 / 2 by norm_num]

/-- C9 witness: the formulas at unit count 1, utilization 1 and the runner
call at watts = 1, year = 2030 with a pure-gas mix. -/
theorem token_output_formula_witness :
    (1 : ℚ) ≠ 0 ∧
    ((estimate_token_output 1 1).tokens_per_second = 1 * 1 * 10000 ∧
     (estimate_token_output 1 1).annual_tokens =
       (estimate_token_output 1 1).tokens_per_second * 31557600 ∧
     ∃ s, run_scenario 1 2030 [("gas", 1)] = some s ∧
       s.tokens = estimate_token_output s.compute.h100e_count 0.5) :=
  ⟨by decide, token_output_formula 1 1 1 2030 [("gas", 1)] (by decide)⟩

/-- C10: for every integer year the cost-per-unit curve is the
power-per-unit curve scaled by 24 = 24000/1000, because both curves branch
identically and compound the identical improvement rate. -/
theorem cost_is_24_times_power (year : ℤ) :
    cost_efficiency year = 24 * power_efficiency year :=
  cost_efficiency_eq_24_mul year

end EnergyModel
